import Mathlib

/-
Verification development for the b00t background-job platform.

This file gives a shallow embedding of the Python sources
  src/b00t-j0b-py/src/b00t_j0b_py/jobs.py
  src/b00t-j0b-py/src/b00t_j0b_py/adk_integration.py
  src/langchain-agent/src/b00t_langchain_agent/k0mmand3r.py
and proves properties of the embedded operations.

Modelling conventions:
- Python values flowing through dicts are modelled by the inductive PVal
  (None, bool, int, str, list, dict), with Python truthiness as a Bool
  predicate.
- A Python exception raised by a statement is modelled with Except String;
  a try/except block is a match on the Except value.  A returns.Result
  value (Success / Failure) coming back from a collaborator is a second,
  inner Except String layer.
- External collaborators (redis client, crawler, parser registry, agent
  service, RQ registries) are fields of explicit environment structures;
  each field carries the Except layers matching how the source may observe
  a raised exception from that call.
- Wall-clock timestamps are integers (seconds); timedelta(days = d) is
  d * 86400.
-/

/-- Embedded Python value: None, bool, int, str, list or dict. -/
inductive PVal where
  | vnone : PVal
  | vbool : Bool → PVal
  | vnum : Int → PVal
  | vstr : String → PVal
  | vlist : List PVal → PVal
  | vdict : List (String × PVal) → PVal

/-- A Python dict with string keys, in insertion order. -/
abbrev PDict := List (String × PVal)

/-- Python truthiness of an embedded value. -/
def truthy : PVal → Bool
  | PVal.vnone => false
  | PVal.vbool b => b
  | PVal.vnum n => n != 0
  | PVal.vstr s => s != ""
  | PVal.vlist l => !l.isEmpty
  | PVal.vdict d => !d.isEmpty

/-- Lookup of a key in a dict: d.get(k) without a default, as an Option. -/
def dlookup : PDict → String → Option PVal
  | [], _ => none
  | (k, v) :: rest, key => if k == key then some v else dlookup rest key

/-- Python d.get(k): None when the key is absent. -/
def dget (d : PDict) (key : String) : PVal :=
  (dlookup d key).getD PVal.vnone

/-- Python d.get(k, default). -/
def dgetD (d : PDict) (key : String) (dflt : PVal) : PVal :=
  (dlookup d key).getD dflt

/-- Python d[k] = v: replace the value of an existing key in place, else
append the new key at the end (dict insertion-order semantics). -/
def dset : PDict → String → PVal → PDict
  | [], key, v => [(key, v)]
  | (k, w) :: rest, key, v =>
      if k == key then (k, v) :: rest else (k, w) :: dset rest key v

/-- Python `a or b` between embedded values: b when a is falsy. -/
def pyOr (a b : PVal) : PVal :=
  if truthy a then a else b

/-- Python str() of an embedded value, as used inside f-strings.  The list
and dict renderings are placeholders; no verified code path renders them. -/
def pvalStr : PVal → String
  | PVal.vnone => "None"
  | PVal.vbool true => "True"
  | PVal.vbool false => "False"
  | PVal.vnum n => toString n
  | PVal.vstr s => s
  | PVal.vlist _ => "<list>"
  | PVal.vdict _ => "<dict>"

/- ===================== Command Router (k0mmand3r.py) ===================== -/

/-- Verb translation table VERB_MAP of k0mmand3r.py lines 22-28. -/
def VERB_MAP : List (String × String) :=
  [("dispatch", "run"),
   ("status", "status"),
   ("capability", "create"),
   ("complete", "delete"),
   ("message", "broadcast")]

/-- Status filtering table STATUS_LEVELS of k0mmand3r.py lines 31-36. -/
def STATUS_LEVELS : List (String × List String) :=
  [("critical", ["error", "fatal"]),
   ("compact", ["info", "error", "fatal"]),
   ("verbose", ["debug", "info", "warn", "error", "fatal"]),
   ("debug", ["trace", "debug", "info", "warn", "error", "fatal"])]

/-- K0mmand3rListener._should_publish (k0mmand3r.py lines 328-339):
the allowed set of the filter mode, defaulting to the compact set when the
mode is unknown, then membership of the level. -/
def should_publish (filter_mode : String) (level : String) : Bool :=
  let allowed :=
    ((STATUS_LEVELS.lookup filter_mode).getD
      ((STATUS_LEVELS.lookup "compact").getD []))
  allowed.contains level

/-- Outbound status message assembled by K0mmand3rListener._publish_result
(k0mmand3r.py lines 301-316).  The field mtype models the JSON key "type". -/
structure StatusMsg where
  timestamp : String
  agent : String
  task_id : PVal
  mtype : String
  level : String
  message : PVal
  metadata : PVal
  progress : Option PVal

/-- Body of the status message built from a result dict at a level
(k0mmand3r.py lines 304-316). -/
def mk_status_message (ts : String) (result : PDict) (level : String) : StatusMsg :=
  { timestamp := ts ++ "Z"
  , agent := "langchain." ++ pvalStr (dgetD result "agent_name" (PVal.vstr "unknown"))
  , task_id := dgetD result "task_id" (PVal.vstr "")
  , mtype := if truthy (dget result "error") then "error" else "progress"
  , level := level
  , message :=
      pyOr (dget result "output")
        (pyOr (dget result "error") (dgetD result "message" (PVal.vstr "")))
  , metadata := dgetD result "metadata" (PVal.vdict [])
  , progress :=
      match dgetD result "metadata" (PVal.vdict []) with
      | PVal.vdict md => dlookup md "progress"
      | _ => none }

/-- K0mmand3rListener._publish_result (k0mmand3r.py lines 287-326): apply
the severity filter, then publish one status message on the status channel.
The redis publish round-trip is outside the pure model; a transport failure
is caught inside the same method and publishes nothing. -/
def publish_result (filter_mode : String) (ts : String) (result : PDict)
    (level : String) : List StatusMsg :=
  if should_publish filter_mode level then [mk_status_message ts result level]
  else []

/-- Modelled from the spec: types.py (module b00t_langchain_agent.types) is
not under src/.  K0mmand3rMessage follows the inbound wire format of spec
section 6: verb string, params object, optional content, agent_id. -/
structure Kmsg where
  verb : String
  params : PDict
  content : Option String
  agent_id : String

/-- Modelled from the spec: the internal agent action identifiers of the
AgentAction enum in the missing types.py are the strings run, status,
create, delete, broadcast (spec section 4.7); ChainAction uses run and
status.  Dispatch in k0mmand3r.py compares the params action value against
these strings. -/
def agentActionStrings : List String := ["run", "status", "create", "delete", "broadcast"]

/-- Environment of collaborator calls made by K0mmand3rListener.  Each
function returns Except String: an error value is a Python exception raised
by the call (agent service, job executor).  Results are the model_dump
dicts the listener republished. -/
structure SvcEnv where
  run_agent : PVal → PVal → PVal → Except String PDict
  broadcast_to_agents : PVal → PVal → Except String (List PDict)
  run_chain : PVal → PDict → Except String PDict
  execute_agent_task : PVal → PVal → PVal → PVal → Except String PDict
  has_job_executor : Bool
  available_agents : List String
  active_agents : List String
  available_chains : List String

/-- Body of K0mmand3rListener._handle_agent_command inside its try block
(k0mmand3r.py lines 151-235).  An Except error is an exception escaping the
body to the except clause at lines 237-239.  The value is the list of
status messages published by the body. -/
def handle_agent_command_try (env : SvcEnv) (mode ts : String) (msg : Kmsg) :
    Except String (List StatusMsg) :=
  let params := msg.params
  let action := dgetD params "action" (PVal.vstr "run")
  match action with
  | PVal.vstr "run" | PVal.vstr "create" =>
    let agent_name := pyOr (dget params "name") (dget params "agent")
    let input_text :=
      pyOr (dget params "input")
        (pyOr (match msg.content with | some c => PVal.vstr c | none => PVal.vnone)
          (PVal.vstr ""))
    let model := dget params "model"
    if !truthy agent_name then Except.ok []
    else
      match env.run_agent agent_name input_text model with
      | Except.error e => Except.error e
      | Except.ok result => Except.ok (publish_result mode ts result "info")
  | PVal.vstr "broadcast" =>
    let bmsg :=
      pyOr (dget params "message")
        (pyOr (match msg.content with | some c => PVal.vstr c | none => PVal.vnone)
          (PVal.vstr ""))
    let from_agent := dget params "from"
    match env.broadcast_to_agents bmsg from_agent with
    | Except.error e => Except.error e
    | Except.ok results =>
        Except.ok (publish_result mode ts
          [("action", PVal.vstr "broadcast"),
           ("results", PVal.vlist (results.map PVal.vdict))] "info")
  | PVal.vstr "status" =>
    Except.ok (publish_result mode ts
      [("available_agents", PVal.vlist (env.available_agents.map PVal.vstr)),
       ("active_agents", PVal.vlist (env.active_agents.map PVal.vstr))] "info")
  | PVal.vstr "delete" =>
    -- pops the cached agent from the in-process map; publishes nothing
    Except.ok []
  | PVal.vstr "run-job" =>
    if !env.has_job_executor then
      Except.ok (publish_result mode ts
        [("error", PVal.vstr "Job executor not available")] "info")
    else
      let agent_type := dget params "agent_type"
      if !truthy agent_type then Except.ok []
      else
        let prompt := dgetD params "prompt" (PVal.vstr "")
        let context_files := dgetD params "context_files" (PVal.vlist [])
        let timeout_ms := dget params "timeout_ms"
        match env.execute_agent_task agent_type prompt context_files timeout_ms with
        | Except.error e => Except.error e
        | Except.ok result => Except.ok (publish_result mode ts result "info")
  | _ =>
    -- unknown agent action: warning logged, nothing published
    Except.ok []

/-- K0mmand3rListener._handle_agent_command (k0mmand3r.py lines 144-239):
the try body, with the except clause publishing the stringified exception
at level error. -/
def handle_agent_command (env : SvcEnv) (mode ts : String) (msg : Kmsg) :
    List StatusMsg :=
  match handle_agent_command_try env mode ts msg with
  | Except.ok out => out
  | Except.error e => publish_result mode ts [("error", PVal.vstr e)] "error"

/-- Body of K0mmand3rListener._handle_chain_command inside its try block
(k0mmand3r.py lines 248-281). -/
def handle_chain_command_try (env : SvcEnv) (mode ts : String) (msg : Kmsg) :
    Except String (List StatusMsg) :=
  let params := msg.params
  let action := dgetD params "action" (PVal.vstr "run")
  match action with
  | PVal.vstr "run" =>
    let chain_name := pyOr (dget params "name") (dget params "chain")
    if !truthy chain_name then Except.ok []
    else
      let chain_params :=
        params.filter (fun kv => !(["action", "name", "chain"].contains kv.1))
      match env.run_chain chain_name chain_params with
      | Except.error e => Except.error e
      | Except.ok result => Except.ok (publish_result mode ts result "info")
  | PVal.vstr "status" =>
    Except.ok (publish_result mode ts
      [("available_chains", PVal.vlist (env.available_chains.map PVal.vstr))] "info")
  | _ => Except.ok []

/-- K0mmand3rListener._handle_chain_command (k0mmand3r.py lines 241-285):
the except clause at lines 283-285 republishes the stringified exception
with the DEFAULT level of _publish_result, which is info, not error. -/
def handle_chain_command (env : SvcEnv) (mode ts : String) (msg : Kmsg) :
    List StatusMsg :=
  match handle_chain_command_try env mode ts msg with
  | Except.ok out => out
  | Except.error e => publish_result mode ts [("error", PVal.vstr e)] "info"

/-- Inbound pub/sub payload as the listener sees it after the redis layer:
either a string that is not valid JSON, or JSON that fails to validate as a
K0mmand3rMessage, or a decoded message. -/
inductive Payload where
  | invalidJson : Payload
  | invalidMessage : Payload
  | valid : Kmsg → Payload

/-- Outcome of _handle_message: the command was dispatched (with the status
messages it published), or the verb was unknown and the message dropped
with a warning, or the payload was dropped by an except clause. -/
inductive HandleOutcome where
  | handled : List StatusMsg → HandleOutcome
  | unknownVerb : String → HandleOutcome
  | dropped : String → HandleOutcome

/-- Verb set routed to _handle_agent_command (k0mmand3r.py line 132). -/
def agentFamilyVerbs : List String :=
  ["agent", "dispatch", "status", "capability", "complete", "message"]

/-- Verb-to-action rewriting of k0mmand3r.py lines 123-128: when the verb is
in VERB_MAP, the params dict gains an action key with the mapped value and
the message is rebuilt. -/
def apply_verb_map (m : Kmsg) : Kmsg :=
  match VERB_MAP.lookup m.verb with
  | some a => { m with params := dset m.params "action" (PVal.vstr a) }
  | none => m

/-- Body of K0mmand3rListener._handle_message inside its try block
(k0mmand3r.py lines 112-137).  JSON decoding and message validation raise
on the first two payload forms; both sub-handlers catch their own failures,
so only the decode steps can raise here. -/
def handle_message_try (env : SvcEnv) (mode ts : String) :
    Payload → Except String HandleOutcome
  | Payload.invalidJson => Except.error "JSONDecodeError"
  | Payload.invalidMessage => Except.error "ValidationError"
  | Payload.valid m =>
    let m1 := apply_verb_map m
    if agentFamilyVerbs.contains m1.verb then
      Except.ok (HandleOutcome.handled (handle_agent_command env mode ts m1))
    else if m1.verb == "chain" then
      Except.ok (HandleOutcome.handled (handle_chain_command env mode ts m1))
    else
      Except.ok (HandleOutcome.unknownVerb m1.verb)

/-- K0mmand3rListener._handle_message (k0mmand3r.py lines 105-142): the two
except clauses at lines 139-142 log and drop the message, so the handler
always returns normally to the listener loop. -/
def handle_message (env : SvcEnv) (mode ts : String) (p : Payload) :
    Except String HandleOutcome :=
  match handle_message_try env mode ts p with
  | Except.ok o => Except.ok o
  | Except.error e => Except.ok (HandleOutcome.dropped e)

/- ===================== Job functions (jobs.py) ===================== -/

/-- In-process mutable state of the module-level crawler singleton of
crawler.py, as touched by jobs.py: the max_depth attribute assigned at
jobs.py lines 24-25 and read at line 55. -/
structure CrawlerState where
  max_depth : Nat

/-- Parsed document returned by the parser registry collaborator
(spec section 6: title, content, metadata, tags). -/
structure ParsedData where
  title : PVal
  content : PVal
  metadata : PVal
  tags : PVal

/-- Environment of collaborator calls made by the job functions of jobs.py.
The outer Except is a raised Python exception; the inner Except is a
returns.Result Failure value.  add_to_queue receives the discovered link
values; the set() conversion and dedupe happen inside the tracker
collaborator boundary. -/
structure JobEnv where
  job_id : String
  crawl_url : String → Nat → Except String (Except String PDict)
  crawl_recursive : String → Nat → Except String (List PDict)
  parse_content : PVal → PVal → PVal → Except String (Except String ParsedData)
  add_to_queue : List PVal → Nat → Except String (Except String Nat)
  process_content : List Nat → String → String → Except String (Except String String)
  cache_content : String → String → String → Except String (Except String Bool)

/-- Update of the crawl data dict with the four parsed_* keys
(jobs.py lines 44-49 and 116-121). -/
def apply_parsed (data : PDict) (p : ParsedData) : PDict :=
  dset (dset (dset (dset data "parsed_title" p.title)
    "parsed_content" p.content) "parsed_metadata" p.metadata) "parsed_tags" p.tags

/-- Error-shaped result of crawl_url_job (jobs.py lines 75-81 and 85-91). -/
def crawl_err_dict (env : JobEnv) (url : String) (depth : Nat) (e : String) : PDict :=
  [("status", PVal.vstr "error"),
   ("url", PVal.vstr url),
   ("depth", PVal.vnum depth),
   ("error", PVal.vstr e),
   ("job_id", PVal.vstr env.job_id)]

/-- Body of crawl_url_job inside its try block, after the max_depth
assignment (jobs.py lines 27-81).  Returns the add_to_queue calls made and
either the result dict or the exception escaping to the outer except.  The
crawler state passed in already carries any max_depth override. -/
def crawl_url_try (env : JobEnv) (st : CrawlerState) (url : String) (depth : Nat) :
    List (List PVal × Nat) × Except String PDict :=
  match env.crawl_url url depth with
  | Except.error e => ([], Except.error e)
  | Except.ok (Except.error e) => ([], Except.ok (crawl_err_dict env url depth e))
  | Except.ok (Except.ok data0) =>
    match env.parse_content (PVal.vstr url)
        (dgetD data0 "content" (PVal.vstr ""))
        (dgetD data0 "content_type" (PVal.vstr "text/html")) with
    | Except.error e => ([], Except.error e)
    | Except.ok pr =>
      let data := match pr with
        | Except.ok p => apply_parsed data0 p
        | Except.error _ => data0
      let success : PDict :=
        [("status", PVal.vstr "success"),
         ("url", PVal.vstr url),
         ("depth", PVal.vnum depth),
         ("data", PVal.vdict data),
         ("job_id", PVal.vstr env.job_id)]
      if depth < st.max_depth then
        match dgetD data "links" (PVal.vlist []) with
        | PVal.vlist child_links =>
          if child_links.isEmpty then ([], Except.ok success)
          else
            match env.add_to_queue child_links (depth + 1) with
            | Except.error e => ([(child_links, depth + 1)], Except.error e)
            | Except.ok _ => ([(child_links, depth + 1)], Except.ok success)
        | other =>
          if truthy other then
            -- a non-list truthy links value would make set() iterate it;
            -- the collaborator receives it as a single unexamined argument
            match env.add_to_queue [other] (depth + 1) with
            | Except.error e => ([([other], depth + 1)], Except.error e)
            | Except.ok _ => ([([other], depth + 1)], Except.ok success)
          else ([], Except.ok success)
      else ([], Except.ok success)

/-- Result of one crawl_url_job call: the returned dict, the crawler
singleton state after the call, and the add_to_queue calls made. -/
structure CrawlJobOut where
  result : PDict
  crawler : CrawlerState
  queued : List (List PVal × Nat)

/-- crawl_url_job (jobs.py lines 15-91).  A passed max_depth overwrites the
module-level crawler singleton state (lines 24-25), and that state persists
after the call returns; the outer except degrades any escaped exception to
the error-shaped dict. -/
def crawl_url_job (env : JobEnv) (st : CrawlerState) (url : String)
    (depth : Nat) (max_depth : Option Nat) : CrawlJobOut :=
  let st1 := match max_depth with
    | some m => { st with max_depth := m }
    | none => st
  match crawl_url_try env st1 url depth with
  | (q, Except.ok d) => { result := d, crawler := st1, queued := q }
  | (q, Except.error e) =>
      { result := crawl_err_dict env url depth e, crawler := st1, queued := q }

/-- Per-result processing loop of digest_url_job (jobs.py lines 106-125):
data["url"] raises KeyError when absent; a raised parser exception escapes
to the outer except; a parser Failure keeps the raw data. -/
def digest_process (env : JobEnv) : List PDict → Except String (List PDict)
  | [] => Except.ok []
  | data :: rest =>
    match dlookup data "url" with
    | none => Except.error "KeyError: url"
    | some u =>
      match env.parse_content u
          (dgetD data "content" (PVal.vstr ""))
          (dgetD data "content_type" (PVal.vstr "text/html")) with
      | Except.error e => Except.error e
      | Except.ok pr =>
        let d1 := match pr with
          | Except.ok p => apply_parsed data p
          | Except.error _ => data
        match digest_process env rest with
        | Except.error e => Except.error e
        | Except.ok ds => Except.ok (d1 :: ds)

/-- digest_url_job (jobs.py lines 94-146). -/
def digest_url_job (env : JobEnv) (url : String) (depth : Nat) : PDict :=
  let errd := fun (e : String) =>
    [("status", PVal.vstr "error"),
     ("start_url", PVal.vstr url),
     ("max_depth", PVal.vnum depth),
     ("error", PVal.vstr e),
     ("job_id", PVal.vstr env.job_id)]
  match env.crawl_recursive url depth with
  | Except.error e => errd e
  | Except.ok results =>
    match digest_process env results with
    | Except.error e => errd e
    | Except.ok processed =>
      [("status", PVal.vstr "success"),
       ("start_url", PVal.vstr url),
       ("max_depth", PVal.vnum depth),
       ("results", PVal.vlist (processed.map PVal.vdict)),
       ("total_pages", PVal.vnum processed.length),
       ("job_id", PVal.vstr env.job_id)]

/-- process_binary_content_job (jobs.py lines 149-198). -/
def process_binary_content_job (env : JobEnv) (url : String)
    (content : List Nat) (content_type : String) : PDict :=
  let errd := fun (e : String) =>
    [("status", PVal.vstr "error"),
     ("url", PVal.vstr url),
     ("content_type", PVal.vstr content_type),
     ("error", PVal.vstr e),
     ("job_id", PVal.vstr env.job_id)]
  match env.process_content content content_type url with
  | Except.error e => errd e
  | Except.ok (Except.error e) => errd e
  | Except.ok (Except.ok processed_text) =>
    match env.cache_content url processed_text "text/markdown" with
    | Except.error e => errd e
    | Except.ok _ =>
      [("status", PVal.vstr "success"),
       ("url", PVal.vstr url),
       ("content_type", PVal.vstr content_type),
       ("processed_content", PVal.vstr processed_text),
       ("content_size", PVal.vnum content.length),
       ("job_id", PVal.vstr env.job_id)]

/- ============== Garbage collector (cleanup_old_data_job) ============== -/

/-- Stored value found under a crawl:url:* key, as phase 1 of the cleanup
job observes it: the GET may return a JSON body that fails to load, a body
whose crawled_at is missing or not ISO-formatted (fromisoformat raises), or
a record with a parsed crawl timestamp (seconds). -/
inductive StoredVal where
  | badJson : StoredVal
  | badTimestamp : StoredVal
  | record : Int → StoredVal

/-- One RQ queue as phase 2 of the cleanup job observes it: the failed and
finished registries each yield per-job fetch outcomes, in registry order.
The outer Except is an exception raised while enumerating the registry; a
per-job entry is the fetched ended_at (None possible) or a raised fetch
exception. -/
structure QueueReg where
  failedIds : Except String (List (Except String (Option Int)))
  finishedIds : Except String (List (Except String (Option Int)))

/-- Environment of store and registry calls made by cleanup_old_data_job.
conn is get_redis_connection; scan is the full cursor iteration over the
crawl:url:* keyspace (each key with the value its GET returns, None when
the key is gone); queues is get_all_queues; scard is the per-queue SCARD.
stats_before and stats_after are the two tracker.get_stats calls. -/
structure CleanupEnv where
  job_id : String
  now : Int
  stats_before : Except String PVal
  stats_after : Except String PVal
  conn : Except String Unit
  scan : Except String (List (String × Option StoredVal))
  queues : Except String (List QueueReg)
  scard : String → Except String Nat

/-- Per-key loop of cleanup phase 1 (jobs.py lines 247-263): keys with no
live value are skipped, unparseable values append a per-key error, records
strictly older than the cutoff are deleted and counted.  Returns the
surviving entries, the deletion count and the per-key errors, in scan
order. -/
def phase1_run (cutoff : Int) :
    List (String × Option StoredVal) →
    List (String × Option StoredVal) × Nat × List String
  | [] => ([], 0, [])
  | kv :: rest =>
    let r := phase1_run cutoff rest
    match kv.2 with
    | none => (kv :: r.1, r.2.1, r.2.2)
    | some StoredVal.badJson =>
        (kv :: r.1, r.2.1, ("Error processing " ++ kv.1) :: r.2.2)
    | some StoredVal.badTimestamp =>
        (kv :: r.1, r.2.1, ("Error processing " ++ kv.1) :: r.2.2)
    | some (StoredVal.record t) =>
        if t < cutoff then (r.1, r.2.1 + 1, r.2.2)
        else (kv :: r.1, r.2.1, r.2.2)

/-- Cleanup phase 1, crawl-record eviction (jobs.py lines 241-269): the
connection or scan raising escapes to the phase except clause, which
appends one phase-level error; otherwise the per-key loop runs.  Yields the
crawl_data_cleaned count and the errors this phase appends. -/
def phase1 (env : CleanupEnv) (cutoff : Int) : Nat × List String :=
  match env.conn with
  | Except.error e => (0, ["Crawl data cleanup error: " ++ e])
  | Except.ok _ =>
    match env.scan with
    | Except.error e => (0, ["Crawl data cleanup error: " ++ e])
    | Except.ok entries =>
      let r := phase1_run cutoff entries
      (r.2.1, r.2.2)

/-- Per-registry counting loop of cleanup phase 2 (jobs.py lines 282-305):
each job is fetched inside a try whose except passes, so a fetch exception
(including the NameError when the phase 1 connection never bound redis_conn)
leaves the count unchanged; jobs with an ended_at strictly before the
cutoff are removed and counted. -/
def count_registry (connOk : Bool) (cutoff : Int)
    (jobs : List (Except String (Option Int))) : Nat :=
  jobs.foldl
    (fun n j =>
      if connOk then
        match j with
        | Except.error _ => n
        | Except.ok none => n
        | Except.ok (some t) => if t < cutoff then n + 1 else n
      else n)
    0

/-- Per-queue loop of cleanup phase 2 (jobs.py lines 275-305): queues are
processed in order; an exception while enumerating a registry escapes to
the phase except clause, keeping the counts accumulated so far and ending
the phase with one phase-level error. -/
def phase2_run (connOk : Bool) (cf cfin : Bool) (cutoff : Int) :
    List QueueReg → Nat × Nat × List String
  | [] => (0, 0, [])
  | q :: rest =>
    match (if cf then q.failedIds else Except.ok []) with
    | Except.error e => (0, 0, ["Job registry cleanup error: " ++ e])
    | Except.ok fjobs =>
      let nf := count_registry connOk cutoff fjobs
      match (if cfin then q.finishedIds else Except.ok []) with
      | Except.error e => (nf, 0, ["Job registry cleanup error: " ++ e])
      | Except.ok gjobs =>
        let nd := count_registry connOk cutoff gjobs
        let r := phase2_run connOk cf cfin cutoff rest
        (nf + r.1, nd + r.2.1, r.2.2)

/-- Cleanup phase 2, job-registry eviction (jobs.py lines 271-311). -/
def phase2 (env : CleanupEnv) (connOk : Bool) (cf cfin : Bool) (cutoff : Int) :
    Nat × Nat × List String :=
  match env.queues with
  | Except.error e => (0, 0, ["Job registry cleanup error: " ++ e])
  | Except.ok qs => phase2_run connOk cf cfin cutoff qs

/-- Per-queue loop of cleanup phase 3 (jobs.py lines 315-323): SCARD each
of the three well-known queues in order; oversized queues are reported
(warnings), never drained; an exception ends the loop via the phase except
clause. -/
def phase3_run (scard : String → Except String Nat) :
    List String → List String × List String
  | [] => ([], [])
  | q :: rest =>
    match scard q with
    | Except.error e => ([], ["Queue cleanup error: " ++ e])
    | Except.ok n =>
      let r := phase3_run scard rest
      ((if n > 1000 then [q] else []) ++ r.1, r.2)

/-- Cleanup phase 3, stale-queue detection (jobs.py lines 313-326): when
phase 1 never bound redis_conn, the first SCARD raises a NameError caught
by the phase except clause. -/
def phase3 (env : CleanupEnv) (connOk : Bool) : List String × List String :=
  if connOk then phase3_run env.scard ["default", "high", "low"]
  else ([], ["Queue cleanup error: NameError"])

/-- Whether phase 1 managed to bind redis_conn: false exactly when
get_redis_connection raised, leaving the name unbound for the later
phases. -/
def connOkOf (env : CleanupEnv) : Bool :=
  match env.conn with
  | Except.ok _ => true
  | Except.error _ => false

/-- Error-shaped result of cleanup_old_data_job (jobs.py lines 343-349). -/
def cleanup_err_dict (env : CleanupEnv) (e : String) : PDict :=
  [("status", PVal.vstr "error"),
   ("error", PVal.vstr e),
   ("job_id", PVal.vstr env.job_id)]

/-- cleanup_old_data_job (jobs.py lines 201-349): stats before, the cutoff
at now minus max_age_days days, the three independent phases each with its
own except clause, stats after, and a success dict aggregating the phase
counts and the concatenated phase errors.  Only an exception outside every
phase try (the stats calls) reaches the outer except. -/
def cleanup_old_data_job (env : CleanupEnv) (max_age_days : Int)
    (clean_failed_jobs clean_finished_jobs : Bool) : PDict :=
  match env.stats_before with
  | Except.error e => cleanup_err_dict env e
  | Except.ok sb =>
    let cutoff := env.now - max_age_days * 86400
    let connOk := connOkOf env
    let p1 := phase1 env cutoff
    let p2 := phase2 env connOk clean_failed_jobs clean_finished_jobs cutoff
    let p3 := phase3 env connOk
    match env.stats_after with
    | Except.error e => cleanup_err_dict env e
    | Except.ok sa =>
      [("status", PVal.vstr "success"),
       ("stats_before", sb),
       ("stats_after", sa),
       ("cleanup_results", PVal.vdict
         [("crawl_data_cleaned", PVal.vnum p1.1),
          ("failed_jobs_cleaned", PVal.vnum p2.1),
          ("finished_jobs_cleaned", PVal.vnum p2.2.1),
          ("stale_queues_cleaned", PVal.vnum 0),
          ("errors", PVal.vlist ((p1.2 ++ p2.2.2 ++ p3.2).map PVal.vstr))]),
       ("max_age_days", PVal.vnum max_age_days),
       ("job_id", PVal.vstr env.job_id)]

/- ============== ADK integration (adk_integration.py) ============== -/

/-- AgentConfig dataclass fields as reconstructed from a dict by
adk_agent_job (adk_integration.py lines 343-356); sub_agents is skipped by
that reconstruction and tools is kept as the raw value. -/
structure AgentConfig where
  name : PVal
  description : PVal
  model_name : PVal
  temperature : PVal
  max_tokens : PVal
  tools : PVal
  enable_mcp : PVal
  require_approval : PVal
  approval_timeout : PVal
  max_iterations : PVal
  timeout_s : PVal
  enable_rewind : PVal

/-- Outcome of the blocking BRPOP on the approval response key, as
_wait_for_approval observes it: the call raised, timed out returning None,
or popped a payload whose JSON load may itself raise. -/
inductive BrpopOut where
  | raised : String → BrpopOut
  | timeout : BrpopOut
  | popped : Except String PDict → BrpopOut

/-- Environment of the ADK runner and job wrappers.  Redis writes made by
_persist_context are external effects whose exceptions are caught inside
that helper (adk_integration.py lines 125-136) and only turn into a
Failure value the caller ignores, so they do not appear here.  enqueue is
queue.enqueue of the parallel coordination strategy, returning the new job
id. -/
structure AdkEnv where
  job_id : String
  now : Int
  publish_approval : Except String Unit
  brpop : String → Int → BrpopOut
  enqueue : PDict → String → Except String String

/-- Failure reason taken from the approval response: response.get with the
default only applies when the key is absent (adk_integration.py line 234). -/
def approval_reason (resp : PDict) : String :=
  match dlookup resp "reason" with
  | some v => pvalStr v
  | none => "Approval denied"

/-- ADKAgentRunner._wait_for_approval (adk_integration.py lines 194-239):
publish the approval request, block on the per-agent response key with the
caller timeout, decode the response; Success only on a truthy approved
field, Failure with the response reason otherwise, Failure on timeout, and
any raised exception degrades to an Approval error Failure. -/
def wait_for_approval (env : AdkEnv) (agent_id : String) (timeout : Int) :
    Except String Bool :=
  match env.publish_approval with
  | Except.error e => Except.error ("Approval error: " ++ e)
  | Except.ok _ =>
    match env.brpop ("adk:agent:" ++ agent_id ++ ":approval:response") timeout with
    | BrpopOut.raised e => Except.error ("Approval error: " ++ e)
    | BrpopOut.timeout =>
        Except.error ("Approval timeout after " ++ toString timeout ++ "s")
    | BrpopOut.popped (Except.error e) => Except.error ("Approval error: " ++ e)
    | BrpopOut.popped (Except.ok resp) =>
        if truthy (dget resp "approved") then Except.ok true
        else Except.error (approval_reason resp)

/-- Serialized AgentExecutionContext for a run that completed at time
endT with the given status (adk_integration.py lines 50-61). -/
def context_dict (agent_id job_id : String) (parent : Option String)
    (status : String) (startT : Int) (endT : Option Int) (metadata : PDict) : PDict :=
  [("agent_id", PVal.vstr agent_id),
   ("job_id", PVal.vstr job_id),
   ("session_id", PVal.vnone),
   ("parent_agent_id", match parent with
     | some p => PVal.vstr p
     | none => PVal.vnone),
   ("status", PVal.vstr status),
   ("start_time", PVal.vnum startT),
   ("end_time", match endT with
     | some t => PVal.vnum t
     | none => PVal.vnone),
   ("metadata", PVal.vdict metadata)]

/-- ADKAgentRunner.execute_agent (adk_integration.py lines 241-319): in the
current source the try body only persists the context (internally caught),
moves the status machine to COMPLETED and returns the success placeholder
dict, so the except path is unreachable and every call returns the success
shape. -/
def execute_agent (env : AdkEnv) (cfg : AgentConfig) (task : String)
    (context : Option PDict) (parent_agent_id : Option String) : PDict :=
  let agent_id := pvalStr cfg.name ++ "_" ++ env.job_id
  let metadata := context.getD []
  [("status", PVal.vstr "success"),
   ("agent_id", PVal.vstr agent_id),
   ("agent_name", cfg.name),
   ("task", PVal.vstr task),
   ("result", PVal.vstr "Agent execution requires google-adk-python package"),
   ("execution_context", PVal.vdict
     (context_dict agent_id env.job_id parent_agent_id "completed"
       env.now (some env.now) metadata)),
   ("job_id", PVal.vstr env.job_id)]

/-- adk_agent_job (adk_integration.py lines 324-359): the AgentConfig
reconstruction happens before any try block, so the subscript accesses of
the name and description keys raise KeyError past the job boundary when
absent; every other field uses .get with a default. -/
def adk_agent_job (env : AdkEnv) (agent_config_dict : PDict) (task : String)
    (context : Option PDict) (parent_agent_id : Option String) :
    Except String PDict :=
  match dlookup agent_config_dict "name" with
  | none => Except.error "KeyError: name"
  | some namev =>
    match dlookup agent_config_dict "description" with
    | none => Except.error "KeyError: description"
    | some descv =>
      let cfg : AgentConfig :=
        { name := namev
        , description := descv
        , model_name := dgetD agent_config_dict "model_name"
            (PVal.vstr "gemini-2.0-flash-exp")
        , temperature := dgetD agent_config_dict "temperature" (PVal.vnum 0)
        , max_tokens := dget agent_config_dict "max_tokens"
        , tools := dgetD agent_config_dict "tools" (PVal.vlist [])
        , enable_mcp := dgetD agent_config_dict "enable_mcp" (PVal.vbool false)
        , require_approval := dgetD agent_config_dict "require_approval"
            (PVal.vbool false)
        , approval_timeout := dgetD agent_config_dict "approval_timeout"
            (PVal.vnum 300)
        , max_iterations := dgetD agent_config_dict "max_iterations" (PVal.vnum 50)
        , timeout_s := dgetD agent_config_dict "timeout" (PVal.vnum 600)
        , enable_rewind := dgetD agent_config_dict "enable_rewind"
            (PVal.vbool false) }
      Except.ok (execute_agent env cfg task context parent_agent_id)

/-- Sequential strategy loop of multi_agent_coordination_job
(adk_integration.py lines 394-398): sub-agents run in order inside the
outer try, so a raise from one adk_agent_job call aborts the loop. -/
def run_sub_agents (env : AdkEnv) (task : String) (parent : String) :
    List PDict → Except String (List PDict)
  | [] => Except.ok []
  | c :: rest =>
    match adk_agent_job env c task none (some parent) with
    | Except.error e => Except.error e
    | Except.ok r =>
      match run_sub_agents env task parent rest with
      | Except.error e => Except.error e
      | Except.ok rs => Except.ok (r :: rs)

/-- Parallel strategy loop of multi_agent_coordination_job
(adk_integration.py lines 400-416): enqueue each sub-agent, then read its
name subscript for the summary entry (a missing name raises after the
enqueue). -/
def enqueue_sub_agents (env : AdkEnv) (task : String) :
    List PDict → Except String (List PDict)
  | [] => Except.ok []
  | c :: rest =>
    match env.enqueue c task with
    | Except.error e => Except.error e
    | Except.ok sub_job_id =>
      match dlookup c "name" with
      | none => Except.error "KeyError: name"
      | some n =>
        match enqueue_sub_agents env task rest with
        | Except.error e => Except.error e
        | Except.ok es =>
          Except.ok
            (([("agent", n),
               ("job_id", PVal.vstr sub_job_id),
               ("status", PVal.vstr "enqueued")] : PDict) :: es)

/-- Body of multi_agent_coordination_job inside its try block
(adk_integration.py lines 385-428). -/
def multi_agent_try (env : AdkEnv) (coord : PDict) (subs : List PDict)
    (task : String) (strategy : String) : Except String PDict :=
  match dlookup coord "name" with
  | none => Except.error "KeyError: name"
  | some cname =>
    let base := fun (sub_agents : List PVal) =>
      ([("status", PVal.vstr "success"),
        ("strategy", PVal.vstr strategy),
        ("coordinator", cname),
        ("sub_agents", PVal.vlist sub_agents),
        ("job_id", PVal.vstr env.job_id)] : PDict)
    if strategy == "sequential" then
      match run_sub_agents env task env.job_id subs with
      | Except.error e => Except.error e
      | Except.ok rs => Except.ok (base (rs.map PVal.vdict))
    else if strategy == "parallel" then
      match enqueue_sub_agents env task subs with
      | Except.error e => Except.error e
      | Except.ok es => Except.ok (base (es.map PVal.vdict))
    else if strategy == "hierarchical" then
      match adk_agent_job env (dset coord "sub_agents" (PVal.vlist (subs.map PVal.vdict)))
          task none none with
      | Except.error e => Except.error e
      | Except.ok cr =>
          Except.ok (base [] ++ [("coordinator_result", PVal.vdict cr)])
    else Except.error ("Unknown coordination strategy: " ++ strategy)

/-- multi_agent_coordination_job (adk_integration.py lines 362-436): the
whole body sits inside a try whose except degrades to the error shape. -/
def multi_agent_coordination_job (env : AdkEnv) (coord : PDict)
    (subs : List PDict) (task : String) (strategy : String) : PDict :=
  match multi_agent_try env coord subs task strategy with
  | Except.ok d => d
  | Except.error e =>
      [("status", PVal.vstr "error"),
       ("error", PVal.vstr e),
       ("job_id", PVal.vstr env.job_id)]

/- ===================== Helper lemmas ===================== -/

/-- The in-code default of _should_publish evaluates to the compact set, so
the filter is membership in the looked-up set with the compact fallback. -/
theorem should_publish_eq (mode level : String) :
    should_publish mode level =
      ((STATUS_LEVELS.lookup mode).getD ["info", "error", "fatal"]).contains level := by
  rfl

/-- Lookup in STATUS_LEVELS yields none exactly off the four known modes. -/
theorem status_levels_lookup_none (mode : String)
    (h1 : mode ≠ "critical") (h2 : mode ≠ "compact")
    (h3 : mode ≠ "verbose") (h4 : mode ≠ "debug") :
    STATUS_LEVELS.lookup mode = none := by
  have e1 : (mode == "critical") = false := beq_eq_false_iff_ne.mpr h1
  have e2 : (mode == "compact") = false := beq_eq_false_iff_ne.mpr h2
  have e3 : (mode == "verbose") = false := beq_eq_false_iff_ne.mpr h3
  have e4 : (mode == "debug") = false := beq_eq_false_iff_ne.mpr h4
  simp [STATUS_LEVELS, List.lookup, e1, e2, e3, e4]

/-- Every filter mode, known or not, lets level error through. -/
theorem should_publish_error_all (mode : String) :
    should_publish mode "error" = true := by
  by_cases h1 : mode = "critical"
  · subst h1; rfl
  by_cases h2 : mode = "compact"
  · subst h2; rfl
  by_cases h3 : mode = "verbose"
  · subst h3; rfl
  by_cases h4 : mode = "debug"
  · subst h4; rfl
  rw [should_publish_eq, status_levels_lookup_none mode h1 h2 h3 h4]
  rfl

/-- Branching on list containment of a level agrees with branching on list
membership. -/
theorem if_contains_eq_if_mem (l : List String) (level : String)
    (x y : List StatusMsg) :
    (if l.contains level then x else y) = (if level ∈ l then x else y) := by
  by_cases h : level ∈ l
  · rw [if_pos h, if_pos (List.elem_iff.mpr h)]
  · rw [if_neg h, if_neg]
    simp only [List.contains, List.elem_iff]
    exact h

/-- C4: with filter mode compact, a debug-level status message is never
published and an info-level one always is; in general _publish_result
publishes exactly one status message, carrying the given level, precisely
when the level lies in the allowed set of the active mode (unknown modes
falling back to the compact set); and the four allowed sets are strictly
ordered critical, compact, verbose, debug. -/
theorem C4_severity_filter :
    (∀ ts result, publish_result "compact" ts result "debug" = []) ∧
    (∀ ts result, publish_result "compact" ts result "info" =
        [mk_status_message ts result "info"]) ∧
    (∀ mode ts result level,
      publish_result mode ts result level =
        if level ∈ (STATUS_LEVELS.lookup mode).getD ["info", "error", "fatal"]
        then [mk_status_message ts result level] else []) ∧
    (∀ mode ts result level,
      (publish_result mode ts result level).all
        (fun m => m.level == level) = true) ∧
    ((["error", "fatal"].all (["info", "error", "fatal"].contains ·) = true) ∧
     (["info", "error", "fatal"].all (["error", "fatal"].contains ·) = false) ∧
     (["info", "error", "fatal"].all
        (["debug", "info", "warn", "error", "fatal"].contains ·) = true) ∧
     (["debug", "info", "warn", "error", "fatal"].all
        (["info", "error", "fatal"].contains ·) = false) ∧
     (["debug", "info", "warn", "error", "fatal"].all
        (["trace", "debug", "info", "warn", "error", "fatal"].contains ·) = true) ∧
     (["trace", "debug", "info", "warn", "error", "fatal"].all
        (["debug", "info", "warn", "error", "fatal"].contains ·) = false)) := by
  refine ⟨fun ts result => rfl, fun ts result => rfl, ?_, ?_, by decide⟩
  · intro mode ts result level
    rw [publish_result, should_publish_eq, if_contains_eq_if_mem]
  · intro mode ts result level
    rw [publish_result]
    by_cases h : should_publish mode level
    · rw [if_pos h]
      simp [mk_status_message]
    · rw [if_neg h]
      rfl

/-- C10: a listener whose filter_mode is none of the four known modes
silently falls back to the compact allowed set: _should_publish returns
true exactly for info, error and fatal. -/
theorem C10_unknown_mode_compact_fallback :
    ∀ mode, mode ∉ ["critical", "compact", "verbose", "debug"] →
      (∀ level, should_publish mode level =
          ["info", "error", "fatal"].contains level) ∧
      should_publish mode "info" = true ∧
      should_publish mode "error" = true ∧
      should_publish mode "fatal" = true ∧
      should_publish mode "debug" = false ∧
      should_publish mode "trace" = false ∧
      should_publish mode "warn" = false := by
  intro mode h
  simp only [List.mem_cons, List.mem_singleton, not_or] at h
  obtain ⟨h1, h2, h3, h4, -⟩ := h
  have key : STATUS_LEVELS.lookup mode = none :=
    status_levels_lookup_none mode h1 h2 h3 h4
  refine ⟨fun level => ?_, ?_, ?_, ?_, ?_, ?_, ?_⟩ <;>
    rw [should_publish_eq, key] <;> rfl

/-- Witness for C10 at the concrete unknown mode bogus. -/
theorem C10_unknown_mode_compact_fallback_witness :
    "bogus" ∉ ["critical", "compact", "verbose", "debug"] ∧
    should_publish "bogus" "info" = true ∧
    should_publish "bogus" "debug" = false :=
  ⟨by decide,
   (C10_unknown_mode_compact_fallback "bogus" (by decide)).2.1,
   (C10_unknown_mode_compact_fallback "bogus" (by decide)).2.2.2.2.1⟩

/-- The level field of an assembled status message is the level it was
published at. -/
theorem mk_status_message_level (ts : String) (r : PDict) (l : String) :
    (mk_status_message ts r l).level = l := rfl

/-- Every message emitted by _publish_result carries the level it was
called with. -/
theorem publish_result_level (mode ts : String) (r : PDict) (l : String) :
    ∀ m ∈ publish_result mode ts r l, m.level = l := by
  intro m hm
  unfold publish_result at hm
  by_cases h : should_publish mode l
  · rw [if_pos h, List.mem_singleton] at hm
    rw [hm]
    rfl
  · rw [if_neg h] at hm
    exact absurd hm (List.not_mem_nil m)

/-- The verb-to-action rewrite only touches the params dict. -/
theorem apply_verb_map_verb (m : Kmsg) : (apply_verb_map m).verb = m.verb := by
  unfold apply_verb_map
  cases VERB_MAP.lookup m.verb <;> rfl

/-- Collaborator environment in which every agent-service and job-executor
call raises the exception boom. -/
def svcBoom : SvcEnv :=
  { run_agent := fun _ _ _ => Except.error "boom"
  , broadcast_to_agents := fun _ _ => Except.error "boom"
  , run_chain := fun _ _ => Except.error "boom"
  , execute_agent_task := fun _ _ _ _ => Except.error "boom"
  , has_job_executor := false
  , available_agents := []
  , active_agents := []
  , available_chains := [] }

/-- A chain run command naming the chain c. -/
def chainRunMsg : Kmsg :=
  { verb := "chain"
  , params := [("name", PVal.vstr "c")]
  , content := none
  , agent_id := "tester" }

/-- An agent run command naming the agent a. -/
def agentRunMsg : Kmsg :=
  { verb := "agent"
  , params := [("name", PVal.vstr "a")]
  , content := none
  , agent_id := "tester" }

/-- Counterexample to C2: under filter mode critical, a chain command whose
handling raises is caught, but the chain-family except clause republishes
at the DEFAULT level info, which critical filters out, so no status message
at all is published and in particular none with level error. -/
theorem C2_counterexample :
    handle_chain_command_try svcBoom "critical" "t0" chainRunMsg =
      Except.error "boom" ∧
    handle_chain_command svcBoom "critical" "t0" chainRunMsg = [] :=
  ⟨rfl, rfl⟩

/-- C2 (amended): an exception during agent-command handling is caught and
published as a status message at level error, under every filter mode; an
exception during chain-command handling is caught (the listener keeps
running and _handle_message returns normally for both families) but is
republished at the default level info, not error, so under filter mode
critical nothing is published for it. -/
theorem C2_exception_caught_and_published :
    ∀ (env : SvcEnv) (mode ts : String) (msg : Kmsg) (e : String),
      (handle_agent_command_try env mode ts msg = Except.error e →
        handle_agent_command env mode ts msg =
          [mk_status_message ts [("error", PVal.vstr e)] "error"] ∧
        (∀ m ∈ handle_agent_command env mode ts msg, m.level = "error")) ∧
      (handle_chain_command_try env mode ts msg = Except.error e →
        handle_chain_command env mode ts msg =
          publish_result mode ts [("error", PVal.vstr e)] "info" ∧
        (∀ m ∈ handle_chain_command env mode ts msg, m.level = "info") ∧
        (mode = "critical" → handle_chain_command env mode ts msg = [])) ∧
      (agentFamilyVerbs.contains msg.verb = true →
        handle_message env mode ts (Payload.valid msg) =
          Except.ok (HandleOutcome.handled
            (handle_agent_command env mode ts (apply_verb_map msg)))) ∧
      (msg.verb = "chain" →
        handle_message env mode ts (Payload.valid msg) =
          Except.ok (HandleOutcome.handled
            (handle_chain_command env mode ts (apply_verb_map msg)))) := by
  intro env mode ts msg e
  refine ⟨?_, ?_, ?_, ?_⟩
  · intro h
    have hh : handle_agent_command env mode ts msg =
        publish_result mode ts [("error", PVal.vstr e)] "error" := by
      unfold handle_agent_command
      rw [h]
    constructor
    · rw [hh, publish_result, if_pos (should_publish_error_all mode)]
    · intro m hm
      rw [hh] at hm
      exact publish_result_level mode ts _ "error" m hm
  · intro h
    have hh : handle_chain_command env mode ts msg =
        publish_result mode ts [("error", PVal.vstr e)] "info" := by
      unfold handle_chain_command
      rw [h]
    refine ⟨hh, ?_, ?_⟩
    · intro m hm
      rw [hh] at hm
      exact publish_result_level mode ts _ "info" m hm
    · intro hc
      subst hc
      rw [hh]
      rfl
  · intro h
    simp only [handle_message, handle_message_try, apply_verb_map_verb, h, if_true]
  · intro h
    simp only [handle_message, handle_message_try, apply_verb_map_verb, h]
    rfl

/-- Witness for C2 at a concrete raising agent command: the exception boom
is caught and republished at level error. -/
theorem C2_exception_caught_and_published_witness :
    handle_agent_command_try svcBoom "critical" "t0" agentRunMsg =
      Except.error "boom" ∧
    handle_agent_command svcBoom "critical" "t0" agentRunMsg =
      [mk_status_message "t0" [("error", PVal.vstr "boom")] "error"] :=
  ⟨rfl,
   ((C2_exception_caught_and_published svcBoom "critical" "t0" agentRunMsg
      "boom").1 rfl).1⟩

/-- C9: the message handler returns normally on every inbound payload: it
drops malformed JSON, payloads that fail to validate as a
K0mmand3rMessage, and messages with a verb outside both dispatch families,
and even dispatched commands produce a normal outcome, so a bad message
never crashes the listener loop. -/
theorem C9_bad_payload_never_crashes_listener :
    ∀ (env : SvcEnv) (mode ts : String),
      (∀ p, ∃ o, handle_message env mode ts p = Except.ok o) ∧
      handle_message env mode ts Payload.invalidJson =
        Except.ok (HandleOutcome.dropped "JSONDecodeError") ∧
      handle_message env mode ts Payload.invalidMessage =
        Except.ok (HandleOutcome.dropped "ValidationError") ∧
      (∀ m : Kmsg, agentFamilyVerbs.contains m.verb = false →
        (m.verb == "chain") = false →
        handle_message env mode ts (Payload.valid m) =
          Except.ok (HandleOutcome.unknownVerb m.verb)) := by
  intro env mode ts
  refine ⟨?_, rfl, rfl, ?_⟩
  · intro p
    unfold handle_message
    cases h : handle_message_try env mode ts p with
    | ok o => exact ⟨o, rfl⟩
    | error e => exact ⟨HandleOutcome.dropped e, rfl⟩
  · intro m h1 h2
    simp only [handle_message, handle_message_try, apply_verb_map_verb, h1, h2,
      Bool.false_eq_true, if_false]

/-- A message with a verb outside both dispatch families. -/
def unknownVerbMsg : Kmsg :=
  { verb := "frobnicate"
  , params := []
  , content := none
  , agent_id := "tester" }

/-- Witness for C9 at a concrete unknown verb. -/
theorem C9_bad_payload_never_crashes_listener_witness :
    agentFamilyVerbs.contains unknownVerbMsg.verb = false ∧
    (unknownVerbMsg.verb == "chain") = false ∧
    handle_message svcBoom "compact" "t0" (Payload.valid unknownVerbMsg) =
      Except.ok (HandleOutcome.unknownVerb "frobnicate") :=
  ⟨rfl, rfl,
   (C9_bad_payload_never_crashes_listener svcBoom "compact" "t0").2.2.2
     unknownVerbMsg rfl rfl⟩

/-- Inbound dispatch scenario message of spec section 8. -/
def dispatchMsg : Kmsg :=
  { verb := "dispatch"
  , params := [("name", PVal.vstr "researcher"), ("input", PVal.vstr "hi")]
  , content := none
  , agent_id := "tester" }

/-- C7: the dispatch message is rewritten by the verb table to the internal
action run, the router invokes run_agent with the agent name researcher,
the input hi and no model override, and exactly one status message is
published whose type field is error when the collaborator result carries a
truthy error and progress otherwise. -/
theorem C7_dispatch_maps_to_run_agent :
    ∀ (env : SvcEnv) (ts : String) (d : PDict),
      env.run_agent (PVal.vstr "researcher") (PVal.vstr "hi") PVal.vnone =
        Except.ok d →
      VERB_MAP.lookup "dispatch" = some "run" ∧
      dget (apply_verb_map dispatchMsg).params "action" = PVal.vstr "run" ∧
      handle_message env "compact" ts (Payload.valid dispatchMsg) =
        Except.ok (HandleOutcome.handled [mk_status_message ts d "info"]) ∧
      (mk_status_message ts d "info").mtype =
        (if truthy (dget d "error") then "error" else "progress") := by
  intro env ts d h
  have step : handle_agent_command_try env "compact" ts (apply_verb_map dispatchMsg)
      = Except.ok (publish_result "compact" ts d "info") := by
    show (match env.run_agent (PVal.vstr "researcher") (PVal.vstr "hi") PVal.vnone with
      | Except.error e => Except.error e
      | Except.ok result => Except.ok (publish_result "compact" ts result "info"))
      = Except.ok (publish_result "compact" ts d "info")
    rw [h]
  have route : handle_message env "compact" ts (Payload.valid dispatchMsg) =
      Except.ok (HandleOutcome.handled
        (handle_agent_command env "compact" ts (apply_verb_map dispatchMsg))) := rfl
  refine ⟨rfl, rfl, ?_, rfl⟩
  rw [route]
  unfold handle_agent_command
  rw [step]
  rfl

/-- Collaborator environment whose run_agent succeeds with a fixed output
dict and whose other calls raise. -/
def svcOk : SvcEnv :=
  { svcBoom with
    run_agent := fun _ _ _ => Except.ok [("output", PVal.vstr "ok")] }

/-- Witness for C7 at the concrete succeeding collaborator. -/
theorem C7_dispatch_maps_to_run_agent_witness :
    svcOk.run_agent (PVal.vstr "researcher") (PVal.vstr "hi") PVal.vnone =
      Except.ok [("output", PVal.vstr "ok")] ∧
    handle_message svcOk "compact" "t0" (Payload.valid dispatchMsg) =
      Except.ok (HandleOutcome.handled
        [mk_status_message "t0" [("output", PVal.vstr "ok")] "info"]) :=
  ⟨rfl,
   (C7_dispatch_maps_to_run_agent svcOk "t0"
      [("output", PVal.vstr "ok")] rfl).2.2.1⟩

/- ===================== Job-result shape (claim C1) ===================== -/

/-- The JobResult contract of spec section 3: the returned dict has a
status key equal to success or error, and a job_id key with the job id. -/
def jobShapeOk (job_id : String) (d : PDict) : Prop :=
  (dlookup d "status" = some (PVal.vstr "success") ∨
   dlookup d "status" = some (PVal.vstr "error")) ∧
  dlookup d "job_id" = some (PVal.vstr job_id)

/-- Every dict an exception-free run of crawl_url_job can return satisfies
the JobResult shape. -/
theorem crawl_url_try_ok_shape (env : JobEnv) (st : CrawlerState) (url : String)
    (depth : Nat) (d : PDict)
    (h : (crawl_url_try env st url depth).2 = Except.ok d) :
    jobShapeOk env.job_id d := by
  unfold crawl_url_try at h
  repeat'
    first
      | split at h
      | dsimp only [] at h
  all_goals
    first
      | exact Except.noConfusion h
      | (injection h with h
         subst h
         exact ⟨Or.inr rfl, rfl⟩)
      | (injection h with h
         subst h
         exact ⟨Or.inl rfl, rfl⟩)

/-- crawl_url_job always returns the JobResult shape. -/
theorem crawl_url_job_shape (env : JobEnv) (st : CrawlerState) (url : String)
    (depth : Nat) (md : Option Nat) :
    jobShapeOk env.job_id (crawl_url_job env st url depth md).result := by
  cases md with
  | none =>
    unfold crawl_url_job
    dsimp only []
    split
    next q d2 heq =>
      exact crawl_url_try_ok_shape env st url depth d2 (by rw [heq])
    next q e heq =>
      exact ⟨Or.inr rfl, rfl⟩
  | some m =>
    unfold crawl_url_job
    dsimp only []
    split
    next q d2 heq =>
      exact crawl_url_try_ok_shape env { st with max_depth := m } url depth d2
        (by rw [heq])
    next q e heq =>
      exact ⟨Or.inr rfl, rfl⟩

/-- digest_url_job always returns the JobResult shape. -/
theorem digest_url_job_shape (env : JobEnv) (url : String) (depth : Nat) :
    jobShapeOk env.job_id (digest_url_job env url depth) := by
  unfold digest_url_job
  dsimp only []
  split
  · exact ⟨Or.inr rfl, rfl⟩
  · split
    · exact ⟨Or.inr rfl, rfl⟩
    · exact ⟨Or.inl rfl, rfl⟩

/-- process_binary_content_job always returns the JobResult shape. -/
theorem process_binary_content_job_shape (env : JobEnv) (url : String)
    (content : List Nat) (ct : String) :
    jobShapeOk env.job_id (process_binary_content_job env url content ct) := by
  unfold process_binary_content_job
  dsimp only []
  split
  · exact ⟨Or.inr rfl, rfl⟩
  · exact ⟨Or.inr rfl, rfl⟩
  · split
    · exact ⟨Or.inr rfl, rfl⟩
    · exact ⟨Or.inl rfl, rfl⟩

/-- cleanup_old_data_job always returns the JobResult shape. -/
theorem cleanup_old_data_job_shape (env : CleanupEnv) (mad : Int)
    (cf cfin : Bool) :
    jobShapeOk env.job_id (cleanup_old_data_job env mad cf cfin) := by
  unfold cleanup_old_data_job
  split
  · exact ⟨Or.inr rfl, rfl⟩
  · dsimp only []
    split
    · exact ⟨Or.inr rfl, rfl⟩
    · exact ⟨Or.inl rfl, rfl⟩

/-- adk_agent_job returns normally with the JobResult shape whenever the
config dict has the name and description keys. -/
theorem adk_agent_job_ok_shape (env : AdkEnv) (cfgd : PDict) (task : String)
    (ctx : Option PDict) (par : Option String) (nv dv : PVal)
    (hn : dlookup cfgd "name" = some nv)
    (hd : dlookup cfgd "description" = some dv) :
    ∃ d, adk_agent_job env cfgd task ctx par = Except.ok d ∧
      jobShapeOk env.job_id d := by
  unfold adk_agent_job
  rw [hn, hd]
  exact ⟨_, rfl, Or.inl rfl, rfl⟩

/-- Every dict an exception-free run of multi_agent_coordination_job can
return satisfies the JobResult shape. -/
theorem multi_agent_try_ok_shape (env : AdkEnv) (coord : PDict)
    (subs : List PDict) (task strat : String) (d : PDict)
    (h : multi_agent_try env coord subs task strat = Except.ok d) :
    jobShapeOk env.job_id d := by
  unfold multi_agent_try at h
  repeat'
    first
      | split at h
      | dsimp only [] at h
  all_goals
    first
      | exact Except.noConfusion h
      | (injection h with h
         subst h
         exact ⟨Or.inl rfl, rfl⟩)

/-- multi_agent_coordination_job always returns the JobResult shape. -/
theorem multi_agent_coordination_job_shape (env : AdkEnv) (coord : PDict)
    (subs : List PDict) (task strat : String) :
    jobShapeOk env.job_id (multi_agent_coordination_job env coord subs task strat) := by
  unfold multi_agent_coordination_job
  split
  next d heq => exact multi_agent_try_ok_shape env coord subs task strat d heq
  next e heq => exact ⟨Or.inr rfl, rfl⟩

/-- Concrete ADK environment used to evaluate the job wrappers. -/
def adkEnvW : AdkEnv :=
  { job_id := "local"
  , now := 0
  , publish_approval := Except.ok ()
  , brpop := fun _ _ => BrpopOut.timeout
  , enqueue := fun _ _ => Except.ok "sub-1" }

/-- Counterexample to C1: adk_agent_job with a config dict missing the
name key raises KeyError past the job boundary instead of returning a
status or error dict, because the AgentConfig reconstruction happens
before any try block. -/
theorem C1_counterexample :
    adk_agent_job adkEnvW [] "t" none none =
      Except.error "KeyError: name" := rfl

/-- C1 (amended): every job function returns normally with a dict whose
status is success or error and whose job_id is the current job id, on
every input including ones that force a collaborator exception — except
adk_agent_job, which only does so when its config dict contains the name
and description keys (its AgentConfig reconstruction runs before the try
boundary, so a missing key raises). -/
theorem C1_job_result_shape :
    (∀ (env : JobEnv) (st : CrawlerState) (url : String) (depth : Nat)
        (md : Option Nat),
      jobShapeOk env.job_id (crawl_url_job env st url depth md).result) ∧
    (∀ (env : JobEnv) (url : String) (depth : Nat),
      jobShapeOk env.job_id (digest_url_job env url depth)) ∧
    (∀ (env : JobEnv) (url : String) (content : List Nat) (ct : String),
      jobShapeOk env.job_id (process_binary_content_job env url content ct)) ∧
    (∀ (env : CleanupEnv) (mad : Int) (cf cfin : Bool),
      jobShapeOk env.job_id (cleanup_old_data_job env mad cf cfin)) ∧
    (∀ (env : AdkEnv) (cfgd : PDict) (task : String) (ctx : Option PDict)
        (par : Option String) (nv dv : PVal),
      dlookup cfgd "name" = some nv →
      dlookup cfgd "description" = some dv →
      ∃ d, adk_agent_job env cfgd task ctx par = Except.ok d ∧
        jobShapeOk env.job_id d) ∧
    (∀ (env : AdkEnv) (coord : PDict) (subs : List PDict) (task strat : String),
      jobShapeOk env.job_id (multi_agent_coordination_job env coord subs task strat)) :=
  ⟨crawl_url_job_shape, digest_url_job_shape, process_binary_content_job_shape,
   cleanup_old_data_job_shape,
   fun env cfgd task ctx par nv dv hn hd =>
     adk_agent_job_ok_shape env cfgd task ctx par nv dv hn hd,
   multi_agent_coordination_job_shape⟩

/-- Witness for C1 at a concrete well-formed ADK config dict. -/
theorem C1_job_result_shape_witness :
    dlookup [("name", PVal.vstr "a"), ("description", PVal.vstr "d")] "name" =
      some (PVal.vstr "a") ∧
    dlookup [("name", PVal.vstr "a"), ("description", PVal.vstr "d")]
      "description" = some (PVal.vstr "d") ∧
    ∃ d, adk_agent_job adkEnvW
        [("name", PVal.vstr "a"), ("description", PVal.vstr "d")] "t" none none =
        Except.ok d ∧ jobShapeOk adkEnvW.job_id d :=
  ⟨rfl, rfl,
   C1_job_result_shape.2.2.2.2.1 adkEnvW
     [("name", PVal.vstr "a"), ("description", PVal.vstr "d")] "t" none none
     (PVal.vstr "a") (PVal.vstr "d") rfl rfl⟩

/- ===================== GC eviction (claim C3) ===================== -/

/-- A stored crawl entry is expired when it holds a parsed record whose
crawl time is strictly before the cutoff; unreadable or absent values are
never expired (they are skipped or error-logged, not deleted). -/
def expired (cutoff : Int) (kv : String × Option StoredVal) : Bool :=
  match kv.2 with
  | some (StoredVal.record t) => t < cutoff
  | _ => false

/-- The phase 1 loop keeps exactly the non-expired entries, in order, and
its deletion count is the number of expired entries. -/
theorem phase1_run_spec (cutoff : Int)
    (entries : List (String × Option StoredVal)) :
    (phase1_run cutoff entries).1 =
      entries.filter (fun kv => !expired cutoff kv) ∧
    (phase1_run cutoff entries).2.1 =
      (entries.filter (fun kv => expired cutoff kv)).length := by
  induction entries with
  | nil => exact ⟨rfl, rfl⟩
  | cons kv rest ih =>
    obtain ⟨ih1, ih2⟩ := ih
    rcases kv with ⟨k, v⟩
    rcases v with _ | v
    · constructor
      · simp [phase1_run, List.filter_cons, expired, ih1]
      · simp [phase1_run, List.filter_cons, expired, ih2]
    · rcases v with _ | _ | t
      · constructor
        · simp [phase1_run, List.filter_cons, expired, ih1]
        · simp [phase1_run, List.filter_cons, expired, ih2]
      · constructor
        · simp [phase1_run, List.filter_cons, expired, ih1]
        · simp [phase1_run, List.filter_cons, expired, ih2]
      · by_cases hlt : t < cutoff
        · constructor
          · simp [phase1_run, List.filter_cons, expired, hlt, ih1]
          · simp [phase1_run, List.filter_cons, expired, hlt, ih2]
        · constructor
          · simp [phase1_run, List.filter_cons, expired, hlt, ih1]
          · simp [phase1_run, List.filter_cons, expired, hlt, ih2]

/-- The crawl_data_cleaned counter reported inside the cleanup_results
field of a cleanup job result. -/
def crawl_data_cleaned_of (d : PDict) : Option PVal :=
  match dlookup d "cleanup_results" with
  | some (PVal.vdict cr) => dlookup cr "crawl_data_cleaned"
  | _ => none

/-- Reading the counter back out of the success dict of the cleanup job. -/
theorem crawl_data_cleaned_of_success_dict (sb sa : PVal) (c1 c2 c3 : Int)
    (errs : List String) (mad : Int) (jid : String) :
    crawl_data_cleaned_of
      [("status", PVal.vstr "success"),
       ("stats_before", sb),
       ("stats_after", sa),
       ("cleanup_results", PVal.vdict
         [("crawl_data_cleaned", PVal.vnum c1),
          ("failed_jobs_cleaned", PVal.vnum c2),
          ("finished_jobs_cleaned", PVal.vnum c3),
          ("stale_queues_cleaned", PVal.vnum 0),
          ("errors", PVal.vlist (errs.map PVal.vstr))]),
       ("max_age_days", PVal.vnum mad),
       ("job_id", PVal.vstr jid)] = some (PVal.vnum c1) := rfl

/-- With a live connection and a successful scan, the phase 1 deletion
count is the number of expired records in the scanned store. -/
theorem phase1_count (env : CleanupEnv) (cutoff : Int)
    (entries : List (String × Option StoredVal))
    (hconn : env.conn = Except.ok ()) (hscan : env.scan = Except.ok entries) :
    (phase1 env cutoff).1 =
      (entries.filter (fun kv => expired cutoff kv)).length := by
  unfold phase1
  rw [hconn, hscan]
  dsimp only []
  exact (phase1_run_spec cutoff entries).2

/-- The reported crawl_data_cleaned of a full cleanup run equals the number
of expired records in the scanned store. -/
theorem cleanup_reports_expired_count (env : CleanupEnv) (mad : Int)
    (cf cfin : Bool) (sb sa : PVal)
    (entries : List (String × Option StoredVal))
    (hsb : env.stats_before = Except.ok sb)
    (hsa : env.stats_after = Except.ok sa)
    (hconn : env.conn = Except.ok ())
    (hscan : env.scan = Except.ok entries) :
    crawl_data_cleaned_of (cleanup_old_data_job env mad cf cfin) =
      some (PVal.vnum
        ((entries.filter (fun kv => expired (env.now - mad * 86400) kv)).length)) := by
  unfold cleanup_old_data_job
  rw [hsb, hsa]
  dsimp only []
  rw [crawl_data_cleaned_of_success_dict]
  rw [phase1_count env (env.now - mad * 86400) entries hconn hscan]

/-- Scenario store of spec section 8: one record aged 10 days, one aged
2 days, against a cleanup with max_age_days 7. -/
def gcScenarioEnv : CleanupEnv :=
  { job_id := "local"
  , now := 1000000
  , stats_before := Except.ok (PVal.vdict [])
  , stats_after := Except.ok (PVal.vdict [])
  , conn := Except.ok ()
  , scan := Except.ok
      [("crawl:url:old", some (StoredVal.record (1000000 - 10 * 86400))),
       ("crawl:url:new", some (StoredVal.record (1000000 - 2 * 86400)))]
  , queues := Except.ok []
  , scard := fun _ => Except.ok 0 }

/-- C3: the GC phase 1 pass keeps every record crawled at or after the
cutoff, removes every record crawled strictly before the cutoff and counts
it exactly once (the count is the number of expired records), the whole
cleanup job reports that count as crawl_data_cleaned, and the scenario
with one 10-day-old and one 2-day-old record under max_age_days 7 reports
crawl_data_cleaned equal to 1. -/
theorem C3_gc_eviction :
    (∀ (cutoff : Int) (entries : List (String × Option StoredVal)),
      (phase1_run cutoff entries).1 =
        entries.filter (fun kv => !expired cutoff kv) ∧
      (phase1_run cutoff entries).2.1 =
        (entries.filter (fun kv => expired cutoff kv)).length ∧
      (∀ kv ∈ entries, expired cutoff kv = false →
        kv ∈ (phase1_run cutoff entries).1) ∧
      (∀ kv, expired cutoff kv = true → kv ∉ (phase1_run cutoff entries).1)) ∧
    (∀ (env : CleanupEnv) (mad : Int) (cf cfin : Bool) (sb sa : PVal)
        (entries : List (String × Option StoredVal)),
      env.stats_before = Except.ok sb → env.stats_after = Except.ok sa →
      env.conn = Except.ok () → env.scan = Except.ok entries →
      crawl_data_cleaned_of (cleanup_old_data_job env mad cf cfin) =
        some (PVal.vnum
          ((entries.filter (fun kv => expired (env.now - mad * 86400) kv)).length))) ∧
    crawl_data_cleaned_of (cleanup_old_data_job gcScenarioEnv 7 true true) =
      some (PVal.vnum 1) := by
  refine ⟨?_, ?_, ?_⟩
  · intro cutoff entries
    obtain ⟨h1, h2⟩ := phase1_run_spec cutoff entries
    refine ⟨h1, h2, ?_, ?_⟩
    · intro kv hkv hexp
      rw [h1, List.mem_filter]
      exact ⟨hkv, by rw [hexp]; rfl⟩
    · intro kv hexp hmem
      rw [h1, List.mem_filter] at hmem
      rw [hexp] at hmem
      exact absurd hmem.2 (by decide)
  · intro env mad cf cfin sb sa entries hsb hsa hconn hscan
    exact cleanup_reports_expired_count env mad cf cfin sb sa entries
      hsb hsa hconn hscan
  · rfl

/-- Witness for C3 at the concrete scenario environment. -/
theorem C3_gc_eviction_witness :
    gcScenarioEnv.stats_before = Except.ok (PVal.vdict []) ∧
    gcScenarioEnv.conn = Except.ok () ∧
    crawl_data_cleaned_of (cleanup_old_data_job gcScenarioEnv 7 true true) =
      some (PVal.vnum 1) :=
  ⟨rfl, rfl, by
    have h := (C3_gc_eviction.2.1) gcScenarioEnv 7 true true
      (PVal.vdict []) (PVal.vdict [])
      [("crawl:url:old", some (StoredVal.record (1000000 - 10 * 86400))),
       ("crawl:url:new", some (StoredVal.record (1000000 - 2 * 86400)))]
      rfl rfl rfl rfl
    simpa using h⟩

/- ===================== GC phase isolation (claim C8) ===================== -/

/-- The errors list reported inside the cleanup_results field of a cleanup
job result. -/
def cleanup_errors_of (d : PDict) : Option PVal :=
  match dlookup d "cleanup_results" with
  | some (PVal.vdict cr) => dlookup cr "errors"
  | _ => none

/-- C8: as long as the outer stats calls succeed, the cleanup job returns
status success no matter what happens inside the three phases; the
reported errors list is the concatenation of the three independent phase
error lists and the reported counts come from each phase separately; a
connection failure in phase 1 is caught and appended as a crawl cleanup
error with zero deletions, a registry enumeration failure in phase 2 is
caught and appended as a registry cleanup error, and a SCARD failure in
phase 3 is caught and appended as a queue cleanup error — no phase failure
aborts the job or the other phases. -/
theorem C8_phase_failure_isolation :
    ∀ (env : CleanupEnv) (mad : Int) (cf cfin : Bool) (sb sa : PVal),
      env.stats_before = Except.ok sb → env.stats_after = Except.ok sa →
      (dlookup (cleanup_old_data_job env mad cf cfin) "status" =
        some (PVal.vstr "success")) ∧
      (cleanup_errors_of (cleanup_old_data_job env mad cf cfin) =
        some (PVal.vlist
          (((phase1 env (env.now - mad * 86400)).2 ++
            (phase2 env (connOkOf env) cf cfin (env.now - mad * 86400)).2.2 ++
            (phase3 env (connOkOf env)).2).map PVal.vstr))) ∧
      (crawl_data_cleaned_of (cleanup_old_data_job env mad cf cfin) =
        some (PVal.vnum (phase1 env (env.now - mad * 86400)).1)) ∧
      (∀ e, env.conn = Except.error e →
        ("Crawl data cleanup error: " ++ e) ∈
          (phase1 env (env.now - mad * 86400)).2 ∧
        (phase1 env (env.now - mad * 86400)).1 = 0) ∧
      (∀ e, env.queues = Except.error e →
        ("Job registry cleanup error: " ++ e) ∈
          (phase2 env (connOkOf env) cf cfin (env.now - mad * 86400)).2.2) ∧
      (∀ e, connOkOf env = true → env.scard "default" = Except.error e →
        ("Queue cleanup error: " ++ e) ∈ (phase3 env (connOkOf env)).2) := by
  intro env mad cf cfin sb sa hsb hsa
  refine ⟨?_, ?_, ?_, ?_, ?_, ?_⟩
  · unfold cleanup_old_data_job
    rw [hsb, hsa]
    rfl
  · unfold cleanup_old_data_job
    rw [hsb, hsa]
    rfl
  · unfold cleanup_old_data_job
    rw [hsb, hsa]
    rfl
  · intro e he
    unfold phase1
    rw [he]
    exact ⟨List.mem_singleton.mpr rfl, rfl⟩
  · intro e he
    unfold phase2
    rw [he]
    exact List.mem_singleton.mpr rfl
  · intro e hco he
    rw [hco]
    unfold phase3
    rw [if_pos rfl]
    unfold phase3_run
    rw [he]
    exact List.mem_singleton.mpr rfl

/-- Cleanup environment whose registry enumeration raises. -/
def gcFailEnv : CleanupEnv :=
  { gcScenarioEnv with queues := Except.error "registry down" }

/-- Witness for C8 at a concrete environment with a failing phase 2. -/
theorem C8_phase_failure_isolation_witness :
    gcFailEnv.stats_before = Except.ok (PVal.vdict []) ∧
    gcFailEnv.queues = Except.error "registry down" ∧
    dlookup (cleanup_old_data_job gcFailEnv 7 true true) "status" =
      some (PVal.vstr "success") ∧
    ("Job registry cleanup error: registry down") ∈
      (phase2 gcFailEnv (connOkOf gcFailEnv) true true
        (gcFailEnv.now - 7 * 86400)).2.2 :=
  ⟨rfl, rfl,
   (C8_phase_failure_isolation gcFailEnv 7 true true (PVal.vdict [])
     (PVal.vdict []) rfl rfl).1,
   (C8_phase_failure_isolation gcFailEnv 7 true true (PVal.vdict [])
     (PVal.vdict []) rfl rfl).2.2.2.2.1 "registry down" rfl⟩

/- ===================== Approval wait (claim C5) ===================== -/

/-- C5: the approval wait blocks only through the BRPOP primitive, which it
invokes with the caller timeout on the per-agent response key; when that
pop times out with no response the wait returns the timeout Failure and
never a Success; when a response is popped it returns Approved exactly
when the approved field is truthy and otherwise the Denied Failure
carrying the response reason (defaulting to Approval denied). -/
theorem C5_approval_wait_outcomes :
    ∀ (env : AdkEnv) (agent_id : String) (t : Int),
      env.publish_approval = Except.ok () →
      (env.brpop ("adk:agent:" ++ agent_id ++ ":approval:response") t =
          BrpopOut.timeout →
        wait_for_approval env agent_id t =
          Except.error ("Approval timeout after " ++ toString t ++ "s") ∧
        ∀ b, wait_for_approval env agent_id t ≠ Except.ok b) ∧
      (∀ resp,
        env.brpop ("adk:agent:" ++ agent_id ++ ":approval:response") t =
          BrpopOut.popped (Except.ok resp) →
        (truthy (dget resp "approved") = true →
          wait_for_approval env agent_id t = Except.ok true) ∧
        (truthy (dget resp "approved") = false →
          wait_for_approval env agent_id t =
            Except.error (approval_reason resp) ∧
          ∀ b, wait_for_approval env agent_id t ≠ Except.ok b)) := by
  intro env agent_id t hpub
  constructor
  · intro hb
    have hval : wait_for_approval env agent_id t =
        Except.error ("Approval timeout after " ++ toString t ++ "s") := by
      unfold wait_for_approval
      rw [hpub, hb]
    refine ⟨hval, ?_⟩
    intro b hcontra
    rw [hval] at hcontra
    exact Except.noConfusion hcontra
  · intro resp hb
    constructor
    · intro htr
      unfold wait_for_approval
      rw [hpub, hb]
      dsimp only []
      rw [if_pos htr]
    · intro htr
      have hval : wait_for_approval env agent_id t =
          Except.error (approval_reason resp) := by
        unfold wait_for_approval
        rw [hpub, hb]
        dsimp only []
        rw [if_neg (by rw [htr]; exact Bool.false_ne_true)]
      refine ⟨hval, ?_⟩
      intro b hcontra
      rw [hval] at hcontra
      exact Except.noConfusion hcontra

/-- Witness for C5 at the concrete environment whose BRPOP always times
out: the wait with timeout 1 returns the timeout Failure. -/
theorem C5_approval_wait_outcomes_witness :
    adkEnvW.publish_approval = Except.ok () ∧
    adkEnvW.brpop ("adk:agent:" ++ "a" ++ ":approval:response") 1 =
      BrpopOut.timeout ∧
    wait_for_approval adkEnvW "a" 1 =
      Except.error "Approval timeout after 1s" :=
  ⟨rfl, rfl, ((C5_approval_wait_outcomes adkEnvW "a" 1 rfl).1 rfl).1⟩

/- ===================== Crawler-state frame effect (claim C6) ===================== -/

/-- Collaborator environment whose crawl succeeds with one discovered link
and whose parser declines with a Failure value. -/
def jobEnvW : JobEnv :=
  { job_id := "local"
  , crawl_url := fun _ _ => Except.ok (Except.ok
      [("content", PVal.vstr "c"),
       ("content_type", PVal.vstr "text/html"),
       ("links", PVal.vlist [PVal.vstr "x"])])
  , crawl_recursive := fun _ _ => Except.ok []
  , parse_content := fun _ _ _ => Except.ok (Except.error "no parser")
  , add_to_queue := fun _ _ => Except.ok (Except.ok 1)
  , process_content := fun _ _ _ => Except.ok (Except.ok "text")
  , cache_content := fun _ _ _ => Except.ok (Except.ok true) }

/-- Counterexample to C6: two successive crawl_url_job invocations share
the in-process crawler singleton.  Starting from max_depth 1, a first call
passing max_depth 0 leaves max_depth 0 behind, and an identical second
call without a max_depth argument then queues nothing, while the same
second call against the untouched state queues the discovered link — the
first invocation changed the observable behavior of the second through
in-process mutable state. -/
theorem C6_counterexample :
    (crawl_url_job jobEnvW { max_depth := 1 } "u1" 0 (some 0)).crawler =
      { max_depth := 0 } ∧
    (crawl_url_job jobEnvW
      (crawl_url_job jobEnvW { max_depth := 1 } "u1" 0 (some 0)).crawler
      "u2" 0 none).queued = [] ∧
    (crawl_url_job jobEnvW { max_depth := 1 } "u2" 0 none).queued =
      [([PVal.vstr "x"], 1)] :=
  ⟨rfl, rfl, rfl⟩

/-- A call whose effective max_depth does not exceed the crawl depth never
queues links. -/
theorem crawl_url_try_no_queue (env : JobEnv) (st : CrawlerState)
    (url : String) (depth : Nat) (h : ¬ depth < st.max_depth) :
    (crawl_url_try env st url depth).1 = [] := by
  unfold crawl_url_try
  repeat'
    first
      | split
      | dsimp only []
  all_goals
    first
      | rfl
      | exact absurd (by assumption) h

/-- The queued calls of a crawl job without a max_depth override are those
of its try body under the incoming state. -/
theorem crawl_url_job_none_queued (env : JobEnv) (st : CrawlerState)
    (url : String) (depth : Nat) :
    (crawl_url_job env st url depth none).queued =
      (crawl_url_try env st url depth).1 := by
  cases hc : crawl_url_try env st url depth with
  | mk q r =>
    cases r <;> simp [crawl_url_job, hc]

/-- C6 (amended): the max_depth argument of crawl_url_job mutates the
module-level crawler singleton and the mutation survives the call, so the
behavior of a later invocation that passes no max_depth is governed by the
state the earlier invocation left behind (it coincides with a run against
a fresh crawler carrying the overridden max_depth, and queues nothing once
the persisted max_depth does not exceed the depth); shared mutable state
between successive in-process job invocations does exist, in the crawler
singleton rather than only in the coordination store. -/
theorem C6_crawler_state_persists :
    (∀ (env : JobEnv) (st : CrawlerState) (url : String) (depth : Nat) (m : Nat),
      (crawl_url_job env st url depth (some m)).crawler = { max_depth := m }) ∧
    (∀ (env : JobEnv) (st : CrawlerState) (url : String) (depth : Nat),
      (crawl_url_job env st url depth none).crawler = st) ∧
    (∀ (env : JobEnv) (st : CrawlerState) (url url2 : String)
        (depth d2 : Nat) (m : Nat),
      crawl_url_job env (crawl_url_job env st url depth (some m)).crawler
          url2 d2 none =
        crawl_url_job env { max_depth := m } url2 d2 none) ∧
    (∀ (env : JobEnv) (st : CrawlerState) (url : String) (depth : Nat),
      st.max_depth ≤ depth →
      (crawl_url_job env st url depth none).queued = []) := by
  have hsome : ∀ (env : JobEnv) (st : CrawlerState) (url : String)
      (depth : Nat) (m : Nat),
      (crawl_url_job env st url depth (some m)).crawler = { max_depth := m } := by
    intro env st url depth m
    unfold crawl_url_job
    dsimp only []
    split <;> rfl
  have hnone : ∀ (env : JobEnv) (st : CrawlerState) (url : String) (depth : Nat),
      (crawl_url_job env st url depth none).crawler = st := by
    intro env st url depth
    unfold crawl_url_job
    dsimp only []
    split <;> rfl
  refine ⟨hsome, hnone, ?_, ?_⟩
  · intro env st url url2 depth d2 m
    rw [hsome env st url depth m]
  · intro env st url depth h
    rw [crawl_url_job_none_queued]
    exact crawl_url_try_no_queue env st url depth (Nat.not_lt.mpr h)

/-- Witness for C6 at a concrete depth-saturated state. -/
theorem C6_crawler_state_persists_witness :
    CrawlerState.max_depth { max_depth := 0 } ≤ 0 ∧
    (crawl_url_job jobEnvW { max_depth := 0 } "u1" 0 none).queued = [] :=
  ⟨Nat.le.refl,
   C6_crawler_state_persists.2.2.2 jobEnvW { max_depth := 0 } "u1" 0 Nat.le.refl⟩
